import Mathlib

/-!
Shallow embedding of `src/elementi/js/wikidata-api.js`.

The JavaScript file defines two classes:

* `WikidataAPI` — a thin client over two read-only Wikidata HTTP endpoints
  (`getEntity`, `searchEntities`) plus pure extraction helpers
  (`getLabel`, `getDescription`, `getPropertyValue`, `getEntityLabelById`,
  `formatWikidataDate`);
* `ProjectDetailApp` — a page controller that reads URL query parameters,
  drives two sequential search-then-fetch flows and writes the results into
  fixed DOM elements.

The embedding models JSON documents as Lean structures, the network as an
oracle (`World`) mapping request parameters to responses, and each async
operation as a `Step`: its settled value (or a thrown JS exception), the
list of HTTP requests it issues, the number of `console.error` calls, and
the DOM update it performs.  The JavaScript code never reads the DOM (it
only writes elements found by id), so DOM updates compose as functions
`Dom → Dom` and values never depend on the incoming DOM.

Two aspects of the asynchrony are modelled explicitly:

* `loadArtistData` and `loadWorkData` call `displayArtistData` /
  `displayWorkData` WITHOUT `await`: the returned promise is discarded.
  A throw inside a display call is therefore an unhandled promise
  rejection — it never reaches `init`'s catch and never stops the rest of
  the page load.  `stepSpawn` models such a call: the spawned step's
  requests, logs and DOM writes still happen, its exception is swallowed.
  The spawned strand's effects really interleave with the caller's
  continuation; the model concatenates them at the spawn point, which
  preserves the set of requests, the per-strand request order and the
  final per-element DOM state (the strands write disjoint elements), but
  not the true cross-strand request order.  Statements about the whole
  `init` trace therefore only use counts and membership, never
  cross-strand order.

* The two `getPropertyValue(work, 'P186')` call sites issue two
  independent HTTP fetches of the same entity id, which may settle
  differently (the program has no cache).  The functional `World` cannot
  express this; `WorldSeq` below re-embeds the work-metadata object under
  an oracle indexed by fetch ordinal for exactly that question.
-/

set_option maxRecDepth 2000

namespace WikidataSpec

/-! ## JSON data model

A Wikidata datavalue's `value` field is either a JSON string or an object.
The code tests, in order: `value.id` (truthy), `typeof value === 'string'`,
`value.text`, `value.amount`, `value.time`.  For the
object form we record each tested field as a `String`, where `""` stands
for a JavaScript-falsy field (absent, `undefined` or the empty string —
the `if (value.x)` tests treat all of these alike). -/

inductive JVal where
  | jstr (s : String)
  | jobj (id text amount time : String)
  deriving DecidableEq, Repr

structure DataValue where
  value : JVal
  deriving DecidableEq, Repr

structure Snak where
  datavalue : Option DataValue
  deriving DecidableEq, Repr

/-- One element of `entity.claims[propertyId]` (the code only reads
`claim.mainsnak.datavalue`). -/
structure WClaim where
  mainsnak : Snak
  deriving DecidableEq, Repr

/-- An entity document: `labels[lang].value` and `descriptions[lang].value`
are modelled as association lists from language to the `.value` string;
`claims` maps a property id to its claim array.  `none` models an absent
member. -/
structure Entity where
  labels : Option (List (String × String))
  descriptions : Option (List (String × String))
  claims : Option (List (String × List WClaim))
  deriving DecidableEq, Repr

/-- A result of the `wbsearchentities` endpoint; the code only uses `.id`. -/
structure SearchResult where
  id : String
  deriving DecidableEq, Repr

/-! ## Pure extraction helpers -/

/-- `getLabel(entity, language)`: `entity.labels[language].value` when
present, otherwise the fallback string. -/
def getLabel (entity : Entity) (language : String) : String :=
  match entity.labels with
  | some m =>
    match List.lookup language m with
    | some v => v
    | none => "Informazione non disponibile"
  | none => "Informazione non disponibile"

/-- `getDescription(entity, language)`: as `getLabel` with its own
fallback. -/
def getDescription (entity : Entity) (language : String) : String :=
  match entity.descriptions with
  | some m =>
    match List.lookup language m with
    | some v => v
    | none => "Descrizione non disponibile"
  | none => "Descrizione non disponibile"

/-- What `getPropertyValue` can do: return a string synchronously, return
the promise of `getEntityLabelById(value.id)` (which has already started a
network request), or raise a `TypeError` (reading `[0].mainsnak` of an
empty claim array). -/
inductive PropResult where
  | value (s : String)
  | promiseLabel (id : String)
  | jsThrow
  deriving DecidableEq, Repr

/-- `getPropertyValue(entity, propertyId, language)`.  The branch order
follows the source: `value.id` truthy → entity reference; string value;
`value.text`; `value.amount`; `value.time`; otherwise the fallback
`'Non specificato'`, which is also returned when `claims` lacks the
property id or the first claim has no `datavalue`.  An empty claim array
is truthy in JavaScript, so `claims[propertyId][0]` is `undefined` and
`.mainsnak` throws. -/
def getPropertyValue (entity : Entity) (propertyId : String) : PropResult :=
  match entity.claims with
  | none => PropResult.value "Non specificato"
  | some m =>
    match List.lookup propertyId m with
    | none => PropResult.value "Non specificato"
    | some [] => PropResult.jsThrow
    | some (claim :: _) =>
      match claim.mainsnak.datavalue with
      | none => PropResult.value "Non specificato"
      | some dv =>
        match dv.value with
        | JVal.jstr s => PropResult.value s
        | JVal.jobj i t a tm =>
          if i ≠ "" then PropResult.promiseLabel i
          else if t ≠ "" then PropResult.value t
          else if a ≠ "" then PropResult.value a
          else if tm ≠ "" then PropResult.value tm
          else PropResult.value "Non specificato"

/-! ## `formatWikidataDate`

The source matches the unanchored regular expression
`/\+(\d{4})-\d{2}-\d{2}/` against the input and returns the captured
four-digit year of the leftmost match, the input itself when there is no
match, and `'Data non disponibile'` for a falsy input (absent or empty
string).  The regex has fixed repetition counts and no alternation, so its
leftmost-match semantics is: scan positions left to right and at each
position try `'+'`, four digits, `'-'`, two digits, `'-'`, two digits. -/

/-- Consume exactly `n` decimal digits, returning them and the rest. -/
def takeDigits : Nat → List Char → Option (List Char × List Char)
  | 0, cs => some ([], cs)
  | _ + 1, [] => none
  | n + 1, c :: cs =>
    if c.isDigit then (takeDigits n cs).map (fun p => (c :: p.1, p.2))
    else none

/-- Consume a single `'-'`. -/
def expectDash : List Char → Option (List Char)
  | c :: cs => if c = '-' then some cs else none
  | [] => none

/-- Try the tail of the date pattern (after the `'+'`): four digits,
dash, two digits, dash, two digits; return the year digits. -/
def afterPlus (cs : List Char) : Option (List Char) :=
  (takeDigits 4 cs).bind fun p =>
    (expectDash p.2).bind fun cs2 =>
      (takeDigits 2 cs2).bind fun q =>
        (expectDash q.2).bind fun cs3 =>
          (takeDigits 2 cs3).map fun _ => p.1

/-- Try the date pattern at the current position. -/
def tryAt : List Char → Option (List Char)
  | c :: cs => if c = '+' then afterPlus cs else none
  | [] => none

/-- Leftmost match of the date pattern: try each position left to
right. -/
def scanDate : List Char → Option (List Char)
  | [] => none
  | c :: cs =>
    match tryAt (c :: cs) with
    | some y => some y
    | none => scanDate cs

/-- `formatWikidataDate(dateString)`; `none` models a `null`/`undefined`
argument, which is falsy like the empty string. -/
def formatWikidataDate : Option String → String
  | none => "Data non disponibile"
  | some s =>
    if s = "" then "Data non disponibile"
    else
      match scanDate s.data with
      | some y => String.mk y
      | none => s

example : formatWikidataDate (some "+1962-00-00T00:00:00Z") = "1962" := by decide
example : formatWikidataDate (some "Non specificato") = "Non specificato" := by decide
example : formatWikidataDate none = "Data non disponibile" := by decide
example : formatWikidataDate (some "") = "Data non disponibile" := by decide
example : getPropertyValue ⟨none, none, none⟩ "P19" = PropResult.value "Non specificato" := by decide

/-! ## Network oracle and effect steps

`World` fixes the response of every possible request: `searchResp term` is
the outcome of the `wbsearchentities` call (`Except.error` models a fetch
or JSON-parse failure, `Except.ok` carries `data.search`), and
`entityResp eid` the outcome of the `Special:EntityData` call
(`Except.ok none` models a response whose `entities` map lacks the id). -/

inductive Req where
  | search (term : String)
  | entityData (id : String)
  deriving DecidableEq, Repr

structure World where
  searchResp : String → Except Unit (List SearchResult)
  entityResp : String → Except Unit (Option Entity)

/-! ## DOM model

Only the listed fields are ever written; `Dom.elems` maps an element id to
its state and `Dom.title` is `document.title`.  The code never reads any
element state, so every operation's DOM effect is a plain update
function. -/

structure Elem where
  textContent : String
  innerHTML : String
  display : String
  href : String
  disabled : Bool
  deriving DecidableEq, Repr

structure Dom where
  elems : String → Elem
  title : String

def updateElem (d : Dom) (eid : String) (f : Elem → Elem) : Dom :=
  { elems := fun i => if i = eid then f (d.elems i) else d.elems i,
    title := d.title }

/-- One async operation: the value it settles to (`Except.error ()` is a
thrown JavaScript exception), the HTTP requests it issues in order, the
number of `console.error` calls, and its DOM update. -/
structure Step (α : Type) where
  val : Except Unit α
  reqs : List Req
  logs : Nat
  upd : Dom → Dom

def stepPure {α : Type} (a : α) : Step α :=
  { val := Except.ok a, reqs := [], logs := 0, upd := fun d => d }

/-- Sequencing: a thrown exception skips the continuation, but requests,
logs and DOM writes already performed are kept. -/
def stepBind {α β : Type} (x : Step α) (f : α → Step β) : Step β :=
  match x.val with
  | Except.error e => { val := Except.error e, reqs := x.reqs, logs := x.logs, upd := x.upd }
  | Except.ok a =>
    let y := f a
    { val := y.val, reqs := x.reqs ++ y.reqs, logs := x.logs + y.logs,
      upd := fun d => y.upd (x.upd d) }

instance : Monad Step where
  pure := stepPure
  bind := stepBind

/-- A thrown JavaScript exception. -/
def stepThrow {α : Type} : Step α :=
  { val := Except.error (), reqs := [], logs := 0, upd := fun d => d }

/-- A `console.error` call. -/
def stepLog : Step Unit :=
  { val := Except.ok (), reqs := [], logs := 1, upd := fun d => d }

/-- A pure DOM write. -/
def stepUpd (f : Dom → Dom) : Step Unit :=
  { val := Except.ok (), reqs := [], logs := 0, upd := f }

/-- `try x catch { h }`: on a thrown exception run the handler on the state
`x` left behind. -/
def stepTryCatch {α : Type} (x : Step α) (h : Step α) : Step α :=
  match x.val with
  | Except.ok _ => x
  | Except.error _ =>
    { val := h.val, reqs := x.reqs ++ h.reqs, logs := x.logs + h.logs,
      upd := fun d => h.upd (x.upd d) }

/-- Calling an async function and discarding its promise: the callee's
requests, logs and DOM writes (those it performs before any throw) still
happen, but a throw becomes an unhandled promise rejection — the caller
always continues normally. -/
def stepSpawn (x : Step Unit) : Step Unit :=
  { val := Except.ok (), reqs := x.reqs, logs := x.logs, upd := x.upd }

/-! ## `WikidataAPI` network operations -/

/-- `getEntity(entityId)`: one request; on failure logs the error and
returns `null` (never rethrows). -/
def getEntity (w : World) (entityId : String) : Step (Option Entity) :=
  match w.entityResp entityId with
  | Except.error _ =>
    { val := Except.ok none, reqs := [Req.entityData entityId], logs := 1, upd := fun d => d }
  | Except.ok e =>
    { val := Except.ok e, reqs := [Req.entityData entityId], logs := 0, upd := fun d => d }

/-- `searchEntities(searchTerm)`: one request; on failure logs the error
and returns the empty array (never rethrows). -/
def searchEntities (w : World) (searchTerm : String) : Step (List SearchResult) :=
  match w.searchResp searchTerm with
  | Except.error _ =>
    { val := Except.ok [], reqs := [Req.search searchTerm], logs := 1, upd := fun d => d }
  | Except.ok rs =>
    { val := Except.ok rs, reqs := [Req.search searchTerm], logs := 0, upd := fun d => d }

/-- `getEntityLabelById(entityId, language)`: fetch the entity and read its
label; when `getEntity` yields `null`, `getLabel(null)` throws and the
surrounding `try` returns the id itself. -/
def getEntityLabelById (w : World) (entityId language : String) : Step String :=
  stepBind (getEntity w entityId) fun ent =>
    match ent with
    | some e => stepPure (getLabel e language)
    | none => stepPure entityId

/-- `await getPropertyValue(entity, pid)` as the callers use it: a plain
string resolves to itself, an entity reference awaits
`getEntityLabelById` (default language `'it'`), and the empty-claim-array
case throws. -/
def awaitProp (w : World) (entity : Entity) (pid : String) : Step String :=
  match getPropertyValue entity pid with
  | PropResult.value s => stepPure s
  | PropResult.promiseLabel i => getEntityLabelById w i "it"
  | PropResult.jsThrow => stepThrow

/-- `formatWikidataDate(getPropertyValue(entity, pid))` as the callers
write it: `getPropertyValue` runs first; when it returns the
`getEntityLabelById` promise, that call has already issued its request,
and `formatWikidataDate` then throws (`promise.match` is not a
function). -/
def dateProp (w : World) (entity : Entity) (pid : String) : Step String :=
  match getPropertyValue entity pid with
  | PropResult.value s => stepPure (formatWikidataDate (some s))
  | PropResult.promiseLabel i =>
    stepBind (getEntityLabelById w i "it") fun _ => stepThrow
  | PropResult.jsThrow => stepThrow

/-! ## `ProjectDetailApp` -/

/-- Controller state built by the constructor from the URL query
parameters. -/
structure App where
  artistName : String
  workName : String
  year : String
  deriving DecidableEq, Repr

/-- `urlParams.get(key) || default`: `get` yields `null` for an absent
parameter; `||` also discards a present but empty value, since `""` is
falsy. -/
def paramOrDefault (v : Option String) (dflt : String) : String :=
  match v with
  | none => dflt
  | some s => if s = "" then dflt else s

/-- The `ProjectDetailApp` constructor, given `urlParams.get`. -/
def mkApp (get : String → Option String) : App :=
  { artistName := paramOrDefault (get "artist") "Giuseppe Penone",
    workName := paramOrDefault (get "work") "Albero della Vita",
    year := paramOrDefault (get "year") "1962" }

/-! ### HTML templates (template literals from the source) -/

def metaItemHtml (key value : String) : String :=
  "\n                <div class=\"wikidata-item\">\n                    <div class=\"metadata-label\">"
    ++ key ++ ":</div>\n                    <div class=\"metadata-value\">"
    ++ value ++ "</div>\n                </div>\n            "

def metaHtml (data : List (String × String)) : String :=
  String.join (data.map fun p => metaItemHtml p.1 p.2)

def noArtistHtml (artistName : String) : String :=
  "\n            <div class=\"alert alert-warning\">\n                <i class=\"fas fa-exclamation-triangle me-2\"></i>\n                Nessun dato trovato su Wikidata per l\x27artista \""
    ++ artistName ++ "\".\n            </div>\n        "

def noWorkHtml (workName : String) : String :=
  "\n            <div class=\"alert alert-warning\">\n                <i class=\"fas fa-exclamation-triangle me-2\"></i>\n                Nessun dato trovato su Wikidata per l\x27opera \""
    ++ workName ++ "\".\n            </div>\n        "

def errorPanelHtml : String :=
  "\n            <div class=\"alert alert-danger\">\n                <h4>Errore nel caricamento dei dati</h4>\n                <p>Si è verificato un errore durante il caricamento delle informazioni da Wikidata.</p>\n                <a href=\"edition-1962.html\" class=\"btn btn-primary\">Torna all\x27edizione 1962</a>\n            </div>\n        "

/-! ### DOM write primitives -/

def setText (eid s : String) : Step Unit :=
  stepUpd fun d => updateElem d eid fun e => { e with textContent := s }

def setInner (eid s : String) : Step Unit :=
  stepUpd fun d => updateElem d eid fun e => { e with innerHTML := s }

def setDisplay (eid s : String) : Step Unit :=
  stepUpd fun d => updateElem d eid fun e => { e with display := s }

def setHref (eid s : String) : Step Unit :=
  stepUpd fun d => updateElem d eid fun e => { e with href := s }

def setDisabled (eid : String) (b : Bool) : Step Unit :=
  stepUpd fun d => updateElem d eid fun e => { e with disabled := b }

def setDocTitle (s : String) : Step Unit :=
  stepUpd fun d => { elems := d.elems, title := s }

/-- `renderMetadata(container, data)`: accumulate one item per entry and
assign `container.innerHTML`. -/
def renderMetadata (containerId : String) (data : List (String × String)) : Step Unit :=
  setInner containerId (metaHtml data)

/-! ### Display and load flows -/

/-- The `data` object built by `displayArtistData(artist)`; a `null`
argument throws on the first member (`getLabel(null)` reads
`.labels`). -/
def artistDataFields (w : World) (artist : Option Entity) : Step (List (String × String)) :=
  match artist with
  | none => stepThrow
  | some a =>
    stepBind (dateProp w a "P569") fun nascita =>
      stepBind (awaitProp w a "P19") fun luogo =>
        stepBind (awaitProp w a "P27") fun naz =>
          stepBind (awaitProp w a "P135") fun mov =>
            stepPure
              [("Nome", getLabel a "it"),
               ("Descrizione", getDescription a "it"),
               ("Data di nascita", nascita),
               ("Luogo di nascita", luogo),
               ("Nazionalità", naz),
               ("Movimento artistico", mov)]

def displayArtistData (w : World) (artist : Option Entity) : Step Unit :=
  stepBind (artistDataFields w artist) fun data =>
    renderMetadata "artistWikidata" data

/-- The `data` object built by `displayWorkData(work)`; note that both
`'Tecnica'` and `'Materiale'` call `getPropertyValue(work, 'P186')`. -/
def workDataFields (w : World) (work : Option Entity) : Step (List (String × String)) :=
  match work with
  | none => stepThrow
  | some a =>
    stepBind (dateProp w a "P571") fun creazione =>
      stepBind (awaitProp w a "P186") fun tecnica =>
        stepBind (awaitProp w a "P186") fun materiale =>
          stepBind (awaitProp w a "P2049") fun dim =>
            stepBind (awaitProp w a "P136") fun genere =>
              stepPure
                [("Titolo", getLabel a "it"),
                 ("Descrizione", getDescription a "it"),
                 ("Data di creazione", creazione),
                 ("Tecnica", tecnica),
                 ("Materiale", materiale),
                 ("Dimensioni", dim),
                 ("Genere", genere)]

def displayWorkData (w : World) (work : Option Entity) : Step Unit :=
  stepBind (workDataFields w work) fun data =>
    renderMetadata "workWikidata" data

def displayNoArtistData (app : App) : Step Unit :=
  setInner "artistWikidata" (noArtistHtml app.artistName)

def displayNoWorkData (app : App) : Step Unit :=
  setInner "workWikidata" (noWorkHtml app.workName)

/-- `loadArtistData()`: `this.displayArtistData(artistEntity)` is called
without `await` — its promise is discarded, so a rejection there is
unhandled and `loadArtistData` itself always resolves. -/
def loadArtistData (w : World) (app : App) : Step Unit :=
  stepBind (searchEntities w app.artistName) fun artistResults =>
    match artistResults with
    | [] => displayNoArtistData app
    | r :: _ =>
      stepBind (getEntity w r.id) fun artistEntity =>
        stepSpawn (displayArtistData w artistEntity)

/-- `loadWorkData()`: search term is `` `${workName} ${artistName}` ``;
`this.displayWorkData(workEntity)` is called without `await`, and the
Wikidata link's href/disabled writes follow unconditionally — they happen
even when the display call rejects. -/
def loadWorkData (w : World) (app : App) : Step Unit :=
  stepBind (searchEntities w (app.workName ++ " " ++ app.artistName)) fun workResults =>
    match workResults with
    | [] => displayNoWorkData app
    | r :: _ =>
      stepBind (getEntity w r.id) fun workEntity =>
        stepBind (stepSpawn (displayWorkData w workEntity)) fun _ =>
          stepBind (setHref "viewOnWikidata" ("https://www.wikidata.org/wiki/" ++ r.id)) fun _ =>
            setDisabled "viewOnWikidata" false

def showLoading : Step Unit :=
  stepBind (setDisplay "loadingSpinner" "block") fun _ =>
    setDisplay "projectContent" "none"

def hideLoading : Step Unit :=
  setDisplay "loadingSpinner" "none"

def showContent : Step Unit :=
  setDisplay "projectContent" "block"

def showError : Step Unit :=
  setInner "projectContent" errorPanelHtml

/-- The body of the `try` block in `init()`. -/
def initTry (w : World) (app : App) : Step Unit :=
  stepBind (setText "projectTitle" app.workName) fun _ =>
    stepBind (setText "projectArtist" app.artistName) fun _ =>
      stepBind (setText "projectYear" app.year) fun _ =>
        stepBind (setDocTitle (app.workName ++ " - " ++ app.artistName ++ " | Biennale Eco Archive")) fun _ =>
          stepBind (loadArtistData w app) fun _ =>
            stepBind (loadWorkData w app) fun _ =>
              stepBind hideLoading fun _ =>
                showContent

/-- The `catch` block of `init()`. -/
def initCatch : Step Unit :=
  stepBind stepLog fun _ =>
    stepBind hideLoading fun _ =>
      stepBind showContent fun _ =>
        showError

/-- `init()`: `showLoading()` runs before the `try`. -/
def init (w : World) (app : App) : Step Unit :=
  stepBind showLoading fun _ =>
    stepTryCatch (initTry w app) initCatch

/-! ### Small concrete sanity checks -/

def defaultElem : Elem :=
  { textContent := "", innerHTML := "", display := "", href := "", disabled := true }

def dom0 : Dom :=
  { elems := fun _ => defaultElem, title := "" }

def app0 : App := mkApp fun _ => none

example : app0 = { artistName := "Giuseppe Penone", workName := "Albero della Vita", year := "1962" } := by decide

/-- A time-valued claim (datavalue `{ value: { time: t, ... } }`). -/
def timeClaim (t : String) : WClaim :=
  { mainsnak := { datavalue := some { value := JVal.jobj "" "" "" t } } }

/-- An entity-reference claim (datavalue `{ value: { id: q, ... } }`). -/
def refClaim (q : String) : WClaim :=
  { mainsnak := { datavalue := some { value := JVal.jobj q "" "" "" } } }

/-- Artist entity: a time-valued birth date and an entity-valued birth
place. -/
def entQ1 : Entity :=
  { labels := some [("it", "Giuseppe Penone")],
    descriptions := some [("it", "artista italiano")],
    claims := some [("P569", [timeClaim "+1947-04-03T00:00:00Z"]), ("P19", [refClaim "Q2"])] }

/-- The birth-place entity referenced by `entQ1`. -/
def entQ2 : Entity :=
  { labels := some [("it", "Garessio")], descriptions := none, claims := none }

/-- Work entity with only a time-valued inception. -/
def entQ3 : Entity :=
  { labels := some [("it", "Albero della Vita")],
    descriptions := some [("it", "scultura")],
    claims := some [("P571", [timeClaim "+1962-00-00T00:00:00Z"])] }

/-- A fully successful world in which the artist's birth place is an
entity reference, so its extraction performs a fifth request. -/
def w1 : World :=
  { searchResp := fun t =>
      if t = "Giuseppe Penone" then Except.ok [{ id := "Q1" }]
      else if t = "Albero della Vita Giuseppe Penone" then Except.ok [{ id := "Q3" }]
      else Except.ok [],
    entityResp := fun i =>
      if i = "Q1" then Except.ok (some entQ1)
      else if i = "Q2" then Except.ok (some entQ2)
      else if i = "Q3" then Except.ok (some entQ3)
      else Except.ok none }

/-- A world in which the artist search succeeds but every entity fetch
fails. -/
def w2 : World :=
  { searchResp := fun t =>
      if t = "Giuseppe Penone" then Except.ok [{ id := "Q1" }]
      else Except.ok [],
    entityResp := fun _ => Except.error () }

example : (init w1 app0).reqs.length = 5 := by decide

example : Req.entityData "Q2" ∈ (init w1 app0).reqs := by decide

example :
    (init w2 app0).reqs =
      [Req.search "Giuseppe Penone", Req.entityData "Q1",
       Req.search "Albero della Vita Giuseppe Penone"] := by decide

example : ((init w2 app0).upd dom0).elems "artistWikidata" = defaultElem := by decide

example : ((init w2 app0).upd dom0).elems "projectContent" =
    { textContent := "", innerHTML := "", display := "block", href := "", disabled := true } := by decide

example : ((init w2 app0).upd dom0).elems "loadingSpinner" =
    { textContent := "", innerHTML := "", display := "none", href := "", disabled := true } := by decide

example : (((init w2 app0).upd dom0).elems "workWikidata").innerHTML =
    noWorkHtml "Albero della Vita" := rfl

example : (init w2 app0).logs = 1 := by decide

example :
    (((init w1 app0).upd dom0).elems "artistWikidata").innerHTML =
      metaHtml
        [("Nome", "Giuseppe Penone"), ("Descrizione", "artista italiano"),
         ("Data di nascita", "1947"), ("Luogo di nascita", "Garessio"),
         ("Nazionalità", "Non specificato"), ("Movimento artistico", "Non specificato")] := rfl

/-! ## Accessors used to state the claims -/

/-- `entity.labels[language]` as an optional value. -/
def labelsLookup (e : Entity) (language : String) : Option String :=
  e.labels.bind fun m => List.lookup language m

/-- `entity.descriptions[language]` as an optional value. -/
def descriptionsLookup (e : Entity) (language : String) : Option String :=
  e.descriptions.bind fun m => List.lookup language m

/-- `entity.claims[propertyId]` as an optional claim array. -/
def claimsLookup (e : Entity) (propertyId : String) : Option (List WClaim) :=
  e.claims.bind fun m => List.lookup propertyId m

/-- The first claim for a property: `none` when `claims` lacks the
property id, `some none` when the claim array is empty, `some (some c)`
when `claims[propertyId][0] = c`. -/
def claimsHead (e : Entity) (propertyId : String) : Option (Option WClaim) :=
  (claimsLookup e propertyId).map List.head?

/-- The list `searchEntities` resolves to in world `w`. -/
def searchResultsOf (w : World) (term : String) : List SearchResult :=
  match w.searchResp term with
  | Except.error _ => []
  | Except.ok rs => rs

/-- The entity (or `null`) `getEntity` resolves to in world `w`. -/
def entityOf (w : World) (eid : String) : Option Entity :=
  match w.entityResp eid with
  | Except.error _ => none
  | Except.ok e => e

/-! ## Claim C1 -/

/-- C1: for every entity document, `getLabel` returns the label value for
the requested language when `entity.labels` contains that language and the
fallback `'Informazione non disponibile'` otherwise; `getDescription`
behaves likewise with fallback `'Descrizione non disponibile'`; and
`getPropertyValue` returns `'Non specificato'` whenever the claims map
lacks the property id or the first claim for it has no `datavalue`. -/
theorem c1_extraction_fallbacks :
    ∀ (e1 e2 e3 e4 e5 e6 : Entity) (lang pid v : String) (c : WClaim) (cs : List WClaim),
      (labelsLookup e1 lang = some v → getLabel e1 lang = v) ∧
      (labelsLookup e2 lang = none → getLabel e2 lang = "Informazione non disponibile") ∧
      (descriptionsLookup e3 lang = some v → getDescription e3 lang = v) ∧
      (descriptionsLookup e4 lang = none → getDescription e4 lang = "Descrizione non disponibile") ∧
      (claimsLookup e5 pid = none → getPropertyValue e5 pid = PropResult.value "Non specificato") ∧
      (claimsLookup e6 pid = some (c :: cs) → c.mainsnak.datavalue = none →
        getPropertyValue e6 pid = PropResult.value "Non specificato") := by
  intro e1 e2 e3 e4 e5 e6 lang pid v c cs
  refine ⟨?_, ?_, ?_, ?_, ?_, ?_⟩
  · intro h
    cases hL : e1.labels with
    | none => simp [labelsLookup, hL] at h
    | some m =>
      cases hk : List.lookup lang m with
      | none => simp [labelsLookup, hL, hk] at h
      | some u =>
        simp [labelsLookup, hL, hk] at h
        simp [getLabel, hL, hk, h]
  · intro h
    cases hL : e2.labels with
    | none => simp [getLabel, hL]
    | some m =>
      cases hk : List.lookup lang m with
      | none => simp [getLabel, hL, hk]
      | some u => simp [labelsLookup, hL, hk] at h
  · intro h
    cases hL : e3.descriptions with
    | none => simp [descriptionsLookup, hL] at h
    | some m =>
      cases hk : List.lookup lang m with
      | none => simp [descriptionsLookup, hL, hk] at h
      | some u =>
        simp [descriptionsLookup, hL, hk] at h
        simp [getDescription, hL, hk, h]
  · intro h
    cases hL : e4.descriptions with
    | none => simp [getDescription, hL]
    | some m =>
      cases hk : List.lookup lang m with
      | none => simp [getDescription, hL, hk]
      | some u => simp [descriptionsLookup, hL, hk] at h
  · intro h
    cases hC : e5.claims with
    | none => simp [getPropertyValue, hC]
    | some m =>
      cases hk : List.lookup pid m with
      | none => simp [getPropertyValue, hC, hk]
      | some l => simp [claimsLookup, hC, hk] at h
  · intro h hdv
    cases hC : e6.claims with
    | none => simp [claimsLookup, hC] at h
    | some m =>
      cases hk : List.lookup pid m with
      | none => simp [claimsLookup, hC, hk] at h
      | some l =>
        simp [claimsLookup, hC, hk] at h
        subst h
        simp [getPropertyValue, hC, hk, hdv]

/-- Witness for C1 at concrete entity documents. -/
theorem c1_extraction_fallbacks_witness :
    getLabel { labels := some [("it", "X")], descriptions := none, claims := none } "it" = "X" ∧
    getLabel { labels := none, descriptions := none, claims := none } "it" = "Informazione non disponibile" ∧
    getDescription { labels := none, descriptions := some [("it", "X")], claims := none } "it" = "X" ∧
    getDescription { labels := none, descriptions := none, claims := none } "it" = "Descrizione non disponibile" ∧
    getPropertyValue { labels := none, descriptions := none, claims := none } "P1" = PropResult.value "Non specificato" ∧
    getPropertyValue { labels := none, descriptions := none, claims := some [("P1", [{ mainsnak := { datavalue := none } }])] } "P1" = PropResult.value "Non specificato" := by
  have h :=
    c1_extraction_fallbacks
      { labels := some [("it", "X")], descriptions := none, claims := none }
      { labels := none, descriptions := none, claims := none }
      { labels := none, descriptions := some [("it", "X")], claims := none }
      { labels := none, descriptions := none, claims := none }
      { labels := none, descriptions := none, claims := none }
      { labels := none, descriptions := none, claims := some [("P1", [{ mainsnak := { datavalue := none } }])] }
      "it" "P1" "X" { mainsnak := { datavalue := none } } []
  exact ⟨h.1 (by decide), h.2.1 (by decide), h.2.2.1 (by decide), h.2.2.2.1 (by decide),
    h.2.2.2.2.1 (by decide), h.2.2.2.2.2 (by decide) (by decide)⟩

/-! ## Claim C4 -/

/-- C4: for every fetch or JSON-parse failure, `searchEntities` returns
the empty array and `getEntity` returns `null`; neither rethrows (the
settled value is `Except.ok`), the error is logged to the console exactly
once, and the failed request is issued exactly once (never retried). -/
theorem c4_failures_degrade :
    ∀ (w : World) (term eid : String),
      (w.searchResp term = Except.error () →
        (searchEntities w term).val = Except.ok [] ∧
        (searchEntities w term).reqs = [Req.search term] ∧
        (searchEntities w term).logs = 1) ∧
      (w.entityResp eid = Except.error () →
        (getEntity w eid).val = Except.ok none ∧
        (getEntity w eid).reqs = [Req.entityData eid] ∧
        (getEntity w eid).logs = 1) := by
  intro w term eid
  constructor
  · intro h
    simp [searchEntities, h]
  · intro h
    simp [getEntity, h]

/-- Witness for C4 in a world where every request fails. -/
theorem c4_failures_degrade_witness :
    (searchEntities { searchResp := fun _ => Except.error (), entityResp := fun _ => Except.error () } "Penone").val = Except.ok [] ∧
    (searchEntities { searchResp := fun _ => Except.error (), entityResp := fun _ => Except.error () } "Penone").reqs = [Req.search "Penone"] ∧
    (searchEntities { searchResp := fun _ => Except.error (), entityResp := fun _ => Except.error () } "Penone").logs = 1 ∧
    (getEntity { searchResp := fun _ => Except.error (), entityResp := fun _ => Except.error () } "Q1").val = Except.ok none ∧
    (getEntity { searchResp := fun _ => Except.error (), entityResp := fun _ => Except.error () } "Q1").reqs = [Req.entityData "Q1"] ∧
    (getEntity { searchResp := fun _ => Except.error (), entityResp := fun _ => Except.error () } "Q1").logs = 1 := by
  have h :=
    c4_failures_degrade
      { searchResp := fun _ => Except.error (), entityResp := fun _ => Except.error () } "Penone" "Q1"
  have hs := h.1 rfl
  have he := h.2 rfl
  exact ⟨hs.1, hs.2.1, hs.2.2, he.1, he.2.1, he.2.2⟩

/-! ## Claim C5 -/

/-- Every character of the string is a decimal digit. -/
def allDigits (s : String) : Bool :=
  s.data.all Char.isDigit

lemma takeDigits_exact (y zs : List Char) (h : ∀ c ∈ y, c.isDigit = true) :
    takeDigits y.length (y ++ zs) = some (y, zs) := by
  induction y with
  | nil => rfl
  | cons c y ih =>
    have hc : c.isDigit = true := h c (List.mem_cons_self c y)
    have ih' := ih fun c' hc' => h c' (List.mem_cons_of_mem c hc')
    simp [takeDigits, hc, ih']

lemma scanDate_skip (pre cs : List Char)
    (h : ∀ i, i < pre.length → tryAt ((pre ++ cs).drop i) = none) :
    scanDate (pre ++ cs) = scanDate cs := by
  induction pre with
  | nil => rfl
  | cons c pre ih =>
    have h0 : tryAt (c :: (pre ++ cs)) = none := by
      have h' := h 0 (Nat.succ_pos pre.length)
      simpa using h'
    have ih' := ih fun i hi => by
      have h' := h (i + 1) (Nat.succ_lt_succ hi)
      simpa using h'
    simp [scanDate, h0, ih']

lemma afterPlus_shape (y d1 d2 suf : List Char)
    (hy4 : y.length = 4) (hy : ∀ c ∈ y, c.isDigit = true)
    (hd1 : d1.length = 2) (hd1d : ∀ c ∈ d1, c.isDigit = true)
    (hd2 : d2.length = 2) (hd2d : ∀ c ∈ d2, c.isDigit = true) :
    afterPlus (y ++ '-' :: (d1 ++ '-' :: (d2 ++ suf))) = some y := by
  have h1 : takeDigits 4 (y ++ '-' :: (d1 ++ '-' :: (d2 ++ suf))) =
      some (y, '-' :: (d1 ++ '-' :: (d2 ++ suf))) := by
    rw [← hy4]; exact takeDigits_exact y _ hy
  have h2 : takeDigits 2 (d1 ++ '-' :: (d2 ++ suf)) = some (d1, '-' :: (d2 ++ suf)) := by
    rw [← hd1]; exact takeDigits_exact d1 _ hd1d
  have h3 : takeDigits 2 (d2 ++ suf) = some (d2, suf) := by
    rw [← hd2]; exact takeDigits_exact d2 _ hd2d
  simp [afterPlus, h1, h2, h3, expectDash]

/-- C5: `formatWikidataDate` returns `'Data non disponibile'` for an
absent or empty input; for an input containing an occurrence of the
pattern `'+'`, four digits, `'-'`, two digits, `'-'`, two digits (the
unanchored regex's search semantics), it returns exactly the four-digit
year of the leftmost occurrence — stated for an arbitrary decomposition
whose prefix contains no earlier occurrence (every matching string has
such a decomposition, at its leftmost occurrence); and it returns every
other non-empty string unchanged. -/
theorem c5_formatWikidataDate :
    formatWikidataDate none = "Data non disponibile" ∧
    formatWikidataDate (some "") = "Data non disponibile" ∧
    (∀ pre y d1 d2 suf : String,
      (∀ i, i < pre.data.length →
        tryAt ((pre ++ "+" ++ y ++ "-" ++ d1 ++ "-" ++ d2 ++ suf).data.drop i) = none) →
      y.data.length = 4 → allDigits y = true →
      d1.data.length = 2 → allDigits d1 = true →
      d2.data.length = 2 → allDigits d2 = true →
      formatWikidataDate (some (pre ++ "+" ++ y ++ "-" ++ d1 ++ "-" ++ d2 ++ suf)) = y) ∧
    (∀ s : String, s ≠ "" → scanDate s.data = none → formatWikidataDate (some s) = s) := by
  refine ⟨rfl, rfl, ?_, ?_⟩
  · intro pre y d1 d2 suf hpre hy4 hyd hd1 hd1d hd2 hd2d
    have hyd' : ∀ c ∈ y.data, c.isDigit = true := by
      simpa [allDigits, List.all_eq_true] using hyd
    have hd1d' : ∀ c ∈ d1.data, c.isDigit = true := by
      simpa [allDigits, List.all_eq_true] using hd1d
    have hd2d' : ∀ c ∈ d2.data, c.isDigit = true := by
      simpa [allDigits, List.all_eq_true] using hd2d
    have hdata : (pre ++ "+" ++ y ++ "-" ++ d1 ++ "-" ++ d2 ++ suf).data =
        pre.data ++ '+' :: (y.data ++ '-' :: (d1.data ++ '-' :: (d2.data ++ suf.data))) := by
      simp [String.data_append]
    have hne : pre ++ "+" ++ y ++ "-" ++ d1 ++ "-" ++ d2 ++ suf ≠ "" := by
      intro hcon
      have : (pre ++ "+" ++ y ++ "-" ++ d1 ++ "-" ++ d2 ++ suf).data = [] := by
        rw [hcon]
      rw [hdata] at this
      exact absurd this (by simp)
    rw [hdata] at hpre
    have hscan : scanDate (pre ++ "+" ++ y ++ "-" ++ d1 ++ "-" ++ d2 ++ suf).data =
        some y.data := by
      rw [hdata, scanDate_skip pre.data _ hpre]
      have hafter := afterPlus_shape y.data d1.data d2.data suf.data hy4 hyd' hd1 hd1d' hd2 hd2d'
      simp [scanDate, tryAt, hafter]
    simp only [formatWikidataDate, if_neg hne, hscan]
  · intro s hs hscan
    simp only [formatWikidataDate, if_neg hs, hscan]

/-- Witness for C5: the canonical Wikidata date string, a string whose
prefix contains a `'+'` that starts no occurrence, a plain string with no
date pattern, and the falsy inputs. -/
theorem c5_formatWikidataDate_witness :
    formatWikidataDate (some ("" ++ "+" ++ "1962" ++ "-" ++ "00" ++ "-" ++ "00" ++ "T00:00:00Z")) = "1962" ∧
    formatWikidataDate (some ("+a" ++ "+" ++ "1962" ++ "-" ++ "01" ++ "-" ++ "01" ++ "")) = "1962" ∧
    formatWikidataDate (some "gesso") = "gesso" ∧
    formatWikidataDate none = "Data non disponibile" ∧
    formatWikidataDate (some "") = "Data non disponibile" := by
  have h := c5_formatWikidataDate
  exact ⟨h.2.2.1 "" "1962" "00" "00" "T00:00:00Z" (by decide) (by decide) (by decide)
      (by decide) (by decide) (by decide) (by decide),
    h.2.2.1 "+a" "1962" "01" "01" "" (by decide) (by decide) (by decide)
      (by decide) (by decide) (by decide) (by decide),
    h.2.2.2 "gesso" (by decide) (by decide), h.1, h.2.1⟩

/-! ## Claim C7 -/

/-- Counterexample to C7 as stated: with the query string `?artist=`, the
parameter `artist` is present with the empty value, but the controller
does not use that value exactly — `'' || default` discards it. -/
theorem c7_counterexample :
    (fun k => if k = "artist" then some "" else none) "artist" = some "" ∧
    (mkApp fun k => if k = "artist" then some "" else none).artistName = "Giuseppe Penone" ∧
    (mkApp fun k => if k = "artist" then some "" else none).artistName ≠ "" := by
  refine ⟨rfl, rfl, ?_⟩
  decide

/-- C7 (amended): the controller reads the URL query parameters `artist`,
`work` and `year`; when a parameter is absent or its value is the empty
string it uses the defaults `'Giuseppe Penone'`, `'Albero della Vita'` and
`'1962'` respectively; a present non-empty value is used exactly. -/
theorem c7_amended_params :
    ∀ (get : String → Option String) (s : String),
      ((get "artist" = none ∨ get "artist" = some "") → (mkApp get).artistName = "Giuseppe Penone") ∧
      ((get "work" = none ∨ get "work" = some "") → (mkApp get).workName = "Albero della Vita") ∧
      ((get "year" = none ∨ get "year" = some "") → (mkApp get).year = "1962") ∧
      (get "artist" = some s → s ≠ "" → (mkApp get).artistName = s) ∧
      (get "work" = some s → s ≠ "" → (mkApp get).workName = s) ∧
      (get "year" = some s → s ≠ "" → (mkApp get).year = s) := by
  intro get s
  refine ⟨?_, ?_, ?_, ?_, ?_, ?_⟩ <;>
    first
    | (rintro (h | h) <;> simp [mkApp, paramOrDefault, h])
    | (intro h hs; simp [mkApp, paramOrDefault, h, hs])

/-- Witness for C7: one present non-empty parameter, one absent, one
empty. -/
theorem c7_amended_params_witness :
    (mkApp fun k => if k = "artist" then some "Penone" else if k = "year" then some "" else none).artistName = "Penone" ∧
    (mkApp fun k => if k = "artist" then some "Penone" else if k = "year" then some "" else none).workName = "Albero della Vita" ∧
    (mkApp fun k => if k = "artist" then some "Penone" else if k = "year" then some "" else none).year = "1962" := by
  have h :=
    c7_amended_params
      (fun k => if k = "artist" then some "Penone" else if k = "year" then some "" else none) "Penone"
  exact ⟨h.2.2.2.1 (by decide) (by decide), h.2.1 (Or.inl (by decide)), h.2.2.1 (Or.inr (by decide))⟩

/-! ## Claim C9 -/

/-- The dispatch `getPropertyValue` performs on the first claim. -/
def propOfHead : Option (Option WClaim) → PropResult
  | none => PropResult.value "Non specificato"
  | some none => PropResult.jsThrow
  | some (some claim) =>
    match claim.mainsnak.datavalue with
    | none => PropResult.value "Non specificato"
    | some dv =>
      match dv.value with
      | JVal.jstr s => PropResult.value s
      | JVal.jobj i t a tm =>
        if i ≠ "" then PropResult.promiseLabel i
        else if t ≠ "" then PropResult.value t
        else if a ≠ "" then PropResult.value a
        else if tm ≠ "" then PropResult.value tm
        else PropResult.value "Non specificato"

lemma getPropertyValue_eq_propOfHead (e : Entity) (pid : String) :
    getPropertyValue e pid = propOfHead (claimsHead e pid) := by
  cases hC : e.claims with
  | none => simp [getPropertyValue, claimsHead, claimsLookup, hC, propOfHead]
  | some m =>
    cases hk : List.lookup pid m with
    | none => simp [getPropertyValue, claimsHead, claimsLookup, hC, hk, propOfHead]
    | some l =>
      cases l with
      | nil => simp [getPropertyValue, claimsHead, claimsLookup, hC, hk, propOfHead]
      | cons c cs => simp [getPropertyValue, claimsHead, claimsLookup, hC, hk, propOfHead]

/-- C9: `getPropertyValue` depends only on the first claim for the
requested property: two entity documents with the same
`claims[propertyId][0]` (including both lacking the property) give the
same result, whatever further claims either of them carries. -/
theorem c9_first_claim_determines :
    ∀ (e1 e2 : Entity) (pid : String),
      claimsHead e1 pid = claimsHead e2 pid →
      getPropertyValue e1 pid = getPropertyValue e2 pid := by
  intro e1 e2 pid h
  rw [getPropertyValue_eq_propOfHead, getPropertyValue_eq_propOfHead, h]

/-- Witness for C9: the same first claim with different tails. -/
theorem c9_first_claim_determines_witness :
    claimsHead { labels := none, descriptions := none, claims := some [("P186", [timeClaim "+1962-01-01T00:00:00Z"])] } "P186" =
      claimsHead { labels := none, descriptions := none, claims := some [("P186", [timeClaim "+1962-01-01T00:00:00Z", refClaim "Q9"])] } "P186" ∧
    getPropertyValue { labels := none, descriptions := none, claims := some [("P186", [timeClaim "+1962-01-01T00:00:00Z"])] } "P186" =
      getPropertyValue { labels := none, descriptions := none, claims := some [("P186", [timeClaim "+1962-01-01T00:00:00Z", refClaim "Q9"])] } "P186" := by
  refine ⟨by decide, ?_⟩
  exact
    c9_first_claim_determines
      { labels := none, descriptions := none, claims := some [("P186", [timeClaim "+1962-01-01T00:00:00Z"])] }
      { labels := none, descriptions := none, claims := some [("P186", [timeClaim "+1962-01-01T00:00:00Z", refClaim "Q9"])] }
      "P186" (by decide)

/-! ## Component lemmas for `Step` sequencing -/

lemma stepBind_val {α β : Type} (x : Step α) (f : α → Step β) :
    (stepBind x f).val =
      match x.val with
      | Except.error e => Except.error e
      | Except.ok a => (f a).val := by
  unfold stepBind; cases x.val <;> rfl

lemma stepBind_reqs {α β : Type} (x : Step α) (f : α → Step β) :
    (stepBind x f).reqs =
      match x.val with
      | Except.error _ => x.reqs
      | Except.ok a => x.reqs ++ (f a).reqs := by
  unfold stepBind; cases x.val <;> rfl

lemma stepBind_upd {α β : Type} (x : Step α) (f : α → Step β) :
    (stepBind x f).upd =
      match x.val with
      | Except.error _ => x.upd
      | Except.ok a => fun d => (f a).upd (x.upd d) := by
  unfold stepBind; cases x.val <;> rfl

lemma stepSpawn_val (x : Step Unit) : (stepSpawn x).val = Except.ok () := rfl

lemma stepSpawn_reqs (x : Step Unit) : (stepSpawn x).reqs = x.reqs := rfl

lemma stepSpawn_upd (x : Step Unit) : (stepSpawn x).upd = x.upd := rfl

lemma stepTryCatch_val {α : Type} (x h : Step α) :
    (stepTryCatch x h).val =
      match x.val with
      | Except.ok a => Except.ok a
      | Except.error _ => h.val := by
  unfold stepTryCatch; cases hv : x.val <;> simp [hv]

lemma stepTryCatch_reqs {α : Type} (x h : Step α) :
    (stepTryCatch x h).reqs =
      match x.val with
      | Except.ok _ => x.reqs
      | Except.error _ => x.reqs ++ h.reqs := by
  unfold stepTryCatch; cases hv : x.val <;> simp [hv]

lemma stepTryCatch_upd {α : Type} (x h : Step α) :
    (stepTryCatch x h).upd =
      match x.val with
      | Except.ok _ => x.upd
      | Except.error _ => fun d => h.upd (x.upd d) := by
  unfold stepTryCatch; cases hv : x.val <;> simp [hv]

/-! ## Claim C10

The two `'Tecnica'` / `'Materiale'` entries both come from
`getPropertyValue(work, 'P186')` — but those are two separate call sites:
when the first datavalue is an entity reference, each one spawns its own
`getEntityLabelById`, i.e. two independent HTTP fetches of the same id,
with no cache.  The functional `World` oracle forces every fetch of the
same id to return the same response, so it cannot ask whether the two
entries can differ.  `WorldSeq` re-embeds the `displayWorkData` data
object from the source under an oracle indexed by the ordinal of the
entity fetch within the display call (0 for the first fetch, 1 for the
next, …), letting independent fetches settle differently. -/

/-- Oracle giving the response of the k-th entity fetch (counted within
one display call) for a given id. -/
structure WorldSeq where
  entityResps : String → Nat → Except Unit (Option Entity)

/-- `await getEntityLabelById(eid, language)` when the underlying fetch is
the `k`-th of the display call: a failed fetch or a missing entity makes
`getLabel(null)` throw inside the callee's `try`, which then returns the
id itself. -/
def labelByIdAt (w : WorldSeq) (eid : String) (k : Nat) (language : String) : String :=
  match w.entityResps eid k with
  | Except.error _ => eid
  | Except.ok none => eid
  | Except.ok (some e) => getLabel e language

/-- `await getPropertyValue(entity, pid)` at fetch ordinal `k`: returns
the settled string and the next ordinal (a fetch is consumed only by the
entity-reference branch). -/
def awaitPropAt (w : WorldSeq) (entity : Entity) (pid : String) (k : Nat) :
    Except Unit String × Nat :=
  match getPropertyValue entity pid with
  | PropResult.value s => (Except.ok s, k)
  | PropResult.promiseLabel i => (Except.ok (labelByIdAt w i k "it"), k + 1)
  | PropResult.jsThrow => (Except.error (), k)

/-- `formatWikidataDate(getPropertyValue(entity, pid))` at fetch ordinal
`k`: the entity-reference branch issues its fetch and then throws
(`promise.match` is not a function). -/
def datePropAt (_w : WorldSeq) (entity : Entity) (pid : String) (k : Nat) :
    Except Unit String × Nat :=
  match getPropertyValue entity pid with
  | PropResult.value s => (Except.ok (formatWikidataDate (some s)), k)
  | PropResult.promiseLabel _ => (Except.error (), k + 1)
  | PropResult.jsThrow => (Except.error (), k)

/-- The `data` object of `displayWorkData(work)` under the
fetch-ordinal oracle, fields in source order. -/
def workDataFieldsSeq (w : WorldSeq) (work : Option Entity) :
    Except Unit (List (String × String)) :=
  match work with
  | none => Except.error ()
  | some a =>
    match datePropAt w a "P571" 0 with
    | (Except.error _, _) => Except.error ()
    | (Except.ok creazione, k1) =>
      match awaitPropAt w a "P186" k1 with
      | (Except.error _, _) => Except.error ()
      | (Except.ok tecnica, k2) =>
        match awaitPropAt w a "P186" k2 with
        | (Except.error _, _) => Except.error ()
        | (Except.ok materiale, k3) =>
          match awaitPropAt w a "P2049" k3 with
          | (Except.error _, _) => Except.error ()
          | (Except.ok dim, k4) =>
            match awaitPropAt w a "P136" k4 with
            | (Except.error _, _) => Except.error ()
            | (Except.ok genere, _) =>
              Except.ok
                [("Titolo", getLabel a "it"), ("Descrizione", getDescription a "it"),
                 ("Data di creazione", creazione), ("Tecnica", tecnica),
                 ("Materiale", materiale), ("Dimensioni", dim), ("Genere", genere)]

/-- A work entity whose only material claim is an entity reference. -/
def entWood : Entity :=
  { labels := some [("it", "Opera")], descriptions := none,
    claims := some [("P186", [refClaim "Q7"])] }

/-- The material entity the `P186` claim references. -/
def entLegno : Entity :=
  { labels := some [("it", "Legno")], descriptions := none, claims := none }

/-- A run in which the first fetch of `Q7` fails and the second
succeeds. -/
def wSeqDiff : WorldSeq :=
  { entityResps := fun eid k =>
      if eid = "Q7" then (if k = 0 then Except.error () else Except.ok (some entLegno))
      else Except.ok none }

/-- Counterexample to C10 as stated: the two `P186` call sites issue two
independent fetches of `Q7`; when the first fails (`getEntityLabelById`
falls back to the raw id) and the second succeeds (it returns the label),
the metadata object is built successfully with `'Tecnica' = "Q7"` but
`'Materiale' = "Legno"` — the two fields are not always equal. -/
theorem c10_counterexample :
    workDataFieldsSeq wSeqDiff (some entWood) =
      Except.ok
        [("Titolo", "Opera"), ("Descrizione", "Descrizione non disponibile"),
         ("Data di creazione", "Non specificato"), ("Tecnica", "Q7"),
         ("Materiale", "Legno"), ("Dimensioni", "Non specificato"),
         ("Genere", "Non specificato")] ∧
    List.lookup "Tecnica"
        [("Titolo", "Opera"), ("Descrizione", "Descrizione non disponibile"),
         ("Data di creazione", "Non specificato"), ("Tecnica", "Q7"),
         ("Materiale", "Legno"), ("Dimensioni", "Non specificato"),
         ("Genere", "Non specificato")] ≠
      List.lookup "Materiale"
        [("Titolo", "Opera"), ("Descrizione", "Descrizione non disponibile"),
         ("Data di creazione", "Non specificato"), ("Tecnica", "Q7"),
         ("Materiale", "Legno"), ("Dimensioni", "Non specificato"),
         ("Genere", "Non specificato")] := by
  refine ⟨rfl, by decide⟩

lemma awaitPropAt_fst_agree (w : WorldSeq) (e : Entity) (pid : String) (k k' : Nat)
    (h : ∀ eid j j', w.entityResps eid j = w.entityResps eid j') :
    (awaitPropAt w e pid k).1 = (awaitPropAt w e pid k').1 := by
  unfold awaitPropAt
  cases getPropertyValue e pid with
  | value s => rfl
  | promiseLabel i =>
    simp only [labelByIdAt, h i k k']
  | jsThrow => rfl

/-- C10 (amended): both `'Tecnica'` and `'Materiale'` are extracted from
the same property id `P186`, so whenever the two independent entity
fetches the extraction may trigger return the same response — in
particular whenever the datavalue is not an entity reference — the two
rendered fields are equal in every successfully built metadata object.
They can differ only when the two fetches of the referenced id settle
differently. -/
theorem c10_amended_same_response :
    ∀ (w : WorldSeq) (work : Option Entity) (fields : List (String × String)),
      (∀ eid j j', w.entityResps eid j = w.entityResps eid j') →
      workDataFieldsSeq w work = Except.ok fields →
      List.lookup "Tecnica" fields = List.lookup "Materiale" fields := by
  intro w work fields hagree h
  cases work with
  | none => simp [workDataFieldsSeq] at h
  | some a =>
    simp only [workDataFieldsSeq] at h
    cases hd : datePropAt w a "P571" 0 with
    | mk v1 k1 =>
      cases v1 with
      | error e => simp [hd] at h
      | ok creazione =>
        simp only [hd] at h
        cases hq1 : awaitPropAt w a "P186" k1 with
        | mk v2 k2 =>
          cases v2 with
          | error e => simp [hq1] at h
          | ok tecnica =>
            simp only [hq1] at h
            cases hq2 : awaitPropAt w a "P186" k2 with
            | mk v3 k3 =>
              cases v3 with
              | error e => simp [hq2] at h
              | ok materiale =>
                simp only [hq2] at h
                have heq : tecnica = materiale := by
                  have hfst := awaitPropAt_fst_agree w a "P186" k1 k2 hagree
                  rw [hq1, hq2] at hfst
                  exact Except.ok.inj hfst
                subst heq
                cases hq3 : awaitPropAt w a "P2049" k3 with
                | mk v4 k4 =>
                  cases v4 with
                  | error e => simp [hq3] at h
                  | ok dim =>
                    simp only [hq3] at h
                    cases hq4 : awaitPropAt w a "P136" k4 with
                    | mk v5 k5 =>
                      cases v5 with
                      | error e => simp [hq4] at h
                      | ok genere =>
                        simp only [hq4] at h
                        cases h
                        rfl

/-- Witness for C10 (amended): an oracle whose responses do not depend on
the fetch ordinal. -/
theorem c10_amended_same_response_witness :
    workDataFieldsSeq { entityResps := fun _ _ => Except.ok (some entLegno) } (some entWood) =
      Except.ok
        [("Titolo", "Opera"), ("Descrizione", "Descrizione non disponibile"),
         ("Data di creazione", "Non specificato"), ("Tecnica", "Legno"),
         ("Materiale", "Legno"), ("Dimensioni", "Non specificato"),
         ("Genere", "Non specificato")] ∧
    List.lookup "Tecnica"
        [("Titolo", "Opera"), ("Descrizione", "Descrizione non disponibile"),
         ("Data di creazione", "Non specificato"), ("Tecnica", "Legno"),
         ("Materiale", "Legno"), ("Dimensioni", "Non specificato"),
         ("Genere", "Non specificato")] =
      List.lookup "Materiale"
        [("Titolo", "Opera"), ("Descrizione", "Descrizione non disponibile"),
         ("Data di creazione", "Non specificato"), ("Tecnica", "Legno"),
         ("Materiale", "Legno"), ("Dimensioni", "Non specificato"),
         ("Genere", "Non specificato")] := by
  refine ⟨rfl, ?_⟩
  exact
    c10_amended_same_response { entityResps := fun _ _ => Except.ok (some entLegno) }
      (some entWood)
      [("Titolo", "Opera"), ("Descrizione", "Descrizione non disponibile"),
       ("Data di creazione", "Non specificato"), ("Tecnica", "Legno"),
       ("Materiale", "Legno"), ("Dimensioni", "Non specificato"),
       ("Genere", "Non specificato")]
      (fun _ _ _ => rfl) rfl

/-! ## Component lemmas for the network operations -/

lemma searchEntities_val (w : World) (t : String) :
    (searchEntities w t).val = Except.ok (searchResultsOf w t) := by
  unfold searchEntities searchResultsOf
  cases w.searchResp t <;> rfl

lemma searchEntities_reqs (w : World) (t : String) :
    (searchEntities w t).reqs = [Req.search t] := by
  unfold searchEntities
  cases w.searchResp t <;> rfl

lemma searchEntities_upd (w : World) (t : String) :
    (searchEntities w t).upd = fun d => d := by
  unfold searchEntities
  cases w.searchResp t <;> rfl

lemma getEntity_val (w : World) (eid : String) :
    (getEntity w eid).val = Except.ok (entityOf w eid) := by
  unfold getEntity entityOf
  cases w.entityResp eid <;> rfl

lemma getEntity_reqs (w : World) (eid : String) :
    (getEntity w eid).reqs = [Req.entityData eid] := by
  unfold getEntity
  cases w.entityResp eid <;> rfl

lemma getEntity_upd (w : World) (eid : String) :
    (getEntity w eid).upd = fun d => d := by
  unfold getEntity
  cases w.entityResp eid <;> rfl

/-! ## Claim C2 -/

/-- Counterexample to C2 as stated: in a world where the artist search
returns a result but the entity fetch fails, `getEntity` resolves to
`null` and `displayArtistData(null)` throws; because the display call is
not awaited the rejection is unhandled and the rest of the load continues
normally — but nothing is ever rendered into the artist container, so
"fetches the entity … and renders its extracted fields into the
corresponding container" fails at this page load. -/
theorem c2_counterexample :
    searchResultsOf w2 app0.artistName = [{ id := "Q1" }] ∧
    Req.entityData "Q1" ∈ (init w2 app0).reqs ∧
    (displayArtistData w2 (entityOf w2 "Q1")).val = Except.error () ∧
    (((init w2 app0).upd dom0).elems "artistWikidata").innerHTML = "" := by
  refine ⟨rfl, by decide, rfl, rfl⟩

/-- C2 (amended): each data flow first calls the search endpoint; when
the returned result list is non-empty it fetches the entity of the first
result's id and starts an asynchronous (un-awaited) render; provided the
entity's metadata object is built without a thrown exception, the
extracted fields are rendered into the corresponding container.  When the
result list is empty it renders the static no-data message and performs no
entity fetch.  A fetch returning `null` or an exception while extracting
leaves the container unwritten — the rejection is unhandled and the rest
of the page load continues normally. -/
theorem c2_amended_flows :
    ∀ (w : World) (app : App) (d : Dom) (r : SearchResult) (rs : List SearchResult)
      (fields : List (String × String)),
      ((loadArtistData w app).reqs.head? = some (Req.search app.artistName)) ∧
      (searchResultsOf w app.artistName = r :: rs →
        Req.entityData r.id ∈ (loadArtistData w app).reqs) ∧
      (searchResultsOf w app.artistName = r :: rs →
        (artistDataFields w (entityOf w r.id)).val = Except.ok fields →
        (((loadArtistData w app).upd d).elems "artistWikidata").innerHTML = metaHtml fields) ∧
      (searchResultsOf w app.artistName = [] →
        (loadArtistData w app).reqs = [Req.search app.artistName] ∧
        (((loadArtistData w app).upd d).elems "artistWikidata").innerHTML = noArtistHtml app.artistName) ∧
      ((loadWorkData w app).reqs.head? = some (Req.search (app.workName ++ " " ++ app.artistName))) ∧
      (searchResultsOf w (app.workName ++ " " ++ app.artistName) = r :: rs →
        Req.entityData r.id ∈ (loadWorkData w app).reqs) ∧
      (searchResultsOf w (app.workName ++ " " ++ app.artistName) = r :: rs →
        (workDataFields w (entityOf w r.id)).val = Except.ok fields →
        (((loadWorkData w app).upd d).elems "workWikidata").innerHTML = metaHtml fields) ∧
      (searchResultsOf w (app.workName ++ " " ++ app.artistName) = [] →
        (loadWorkData w app).reqs = [Req.search (app.workName ++ " " ++ app.artistName)] ∧
        (((loadWorkData w app).upd d).elems "workWikidata").innerHTML = noWorkHtml app.workName) := by
  intro w app d r rs fields
  refine ⟨?_, ?_, ?_, ?_, ?_, ?_, ?_, ?_⟩
  · simp only [loadArtistData]
    rw [stepBind_reqs, searchEntities_val]
    simp [searchEntities_reqs]
  · intro hres
    simp only [loadArtistData]
    rw [stepBind_reqs, searchEntities_val, hres]
    simp only [stepBind_reqs, getEntity_val]
    simp [searchEntities_reqs, getEntity_reqs]
  · intro hres hfields
    simp only [loadArtistData]
    rw [stepBind_upd, searchEntities_val, hres]
    simp only [searchEntities_upd, displayArtistData]
    rw [stepBind_upd, getEntity_val]
    simp only [getEntity_upd, stepSpawn_upd]
    rw [stepBind_upd, hfields]
    simp [renderMetadata, setInner, stepUpd, updateElem]
  · intro hres
    simp only [loadArtistData]
    constructor
    · rw [stepBind_reqs, searchEntities_val, hres]
      simp [searchEntities_reqs, displayNoArtistData, setInner, stepUpd]
    · rw [stepBind_upd, searchEntities_val, hres]
      simp [searchEntities_upd, displayNoArtistData, setInner, stepUpd, updateElem]
  · simp only [loadWorkData]
    rw [stepBind_reqs, searchEntities_val]
    simp [searchEntities_reqs]
  · intro hres
    simp only [loadWorkData]
    rw [stepBind_reqs, searchEntities_val, hres]
    simp only [stepBind_reqs, getEntity_val]
    simp [searchEntities_reqs, getEntity_reqs]
  · intro hres hfields
    simp only [loadWorkData]
    rw [stepBind_upd, searchEntities_val, hres]
    simp only [searchEntities_upd]
    rw [stepBind_upd, getEntity_val]
    simp only [getEntity_upd, displayWorkData]
    rw [stepBind_upd]
    simp only [stepSpawn_val, stepSpawn_upd]
    nth_rewrite 2 [stepBind_upd]
    rw [hfields]
    simp [renderMetadata, setInner, setHref, setDisabled, stepBind, stepUpd, updateElem]
  · intro hres
    simp only [loadWorkData]
    constructor
    · rw [stepBind_reqs, searchEntities_val, hres]
      simp [searchEntities_reqs, displayNoWorkData, setInner, stepUpd]
    · rw [stepBind_upd, searchEntities_val, hres]
      simp [searchEntities_upd, displayNoWorkData, setInner, stepUpd, updateElem]

/-- A world in which every search returns no results. -/
def wEmpty : World :=
  { searchResp := fun _ => Except.ok [], entityResp := fun _ => Except.ok none }

/-- Witness for C2 (amended): a successful artist flow in `w1` and an
empty search in `wEmpty`. -/
theorem c2_amended_flows_witness :
    Req.entityData "Q1" ∈ (loadArtistData w1 app0).reqs ∧
    (((loadArtistData w1 app0).upd dom0).elems "artistWikidata").innerHTML =
      metaHtml
        [("Nome", "Giuseppe Penone"), ("Descrizione", "artista italiano"),
         ("Data di nascita", "1947"), ("Luogo di nascita", "Garessio"),
         ("Nazionalità", "Non specificato"), ("Movimento artistico", "Non specificato")] ∧
    (loadArtistData wEmpty app0).reqs = [Req.search "Giuseppe Penone"] ∧
    (((loadArtistData wEmpty app0).upd dom0).elems "artistWikidata").innerHTML =
      noArtistHtml "Giuseppe Penone" := by
  have h1 :=
    c2_amended_flows w1 app0 dom0 { id := "Q1" } []
      [("Nome", "Giuseppe Penone"), ("Descrizione", "artista italiano"),
       ("Data di nascita", "1947"), ("Luogo di nascita", "Garessio"),
       ("Nazionalità", "Non specificato"), ("Movimento artistico", "Non specificato")]
  have h2 := c2_amended_flows wEmpty app0 dom0 { id := "Q1" } [] []
  have he := h2.2.2.2.1 rfl
  exact ⟨h1.2.1 rfl, h1.2.2.1 rfl rfl, he.1, he.2⟩

/-! ## Claim C6

In the source a throw inside `displayArtistData` / `displayWorkData` is an
unhandled promise rejection: the display call is not awaited, so the
exception never reaches `init`'s catch.  Within the modelled flows (DOM
elements present, search responses carrying a result array) the try body
never throws at all: every settled value along the awaited chain is
`Except.ok`. -/

lemma loadArtistData_val (w : World) (app : App) :
    (loadArtistData w app).val = Except.ok () := by
  simp only [loadArtistData]
  rw [stepBind_val, searchEntities_val]
  cases searchResultsOf w app.artistName with
  | nil => rfl
  | cons r rest =>
    have h3 : (stepBind (getEntity w r.id) fun artistEntity =>
        stepSpawn (displayArtistData w artistEntity)).val = Except.ok () := by
      rw [stepBind_val, getEntity_val]
      rfl
    exact h3

lemma loadWorkData_val (w : World) (app : App) :
    (loadWorkData w app).val = Except.ok () := by
  simp only [loadWorkData]
  rw [stepBind_val, searchEntities_val]
  cases searchResultsOf w (app.workName ++ " " ++ app.artistName) with
  | nil => rfl
  | cons r rest =>
    have h3 : (stepBind (getEntity w r.id) fun workEntity =>
        stepBind (stepSpawn (displayWorkData w workEntity)) fun _ =>
          stepBind (setHref "viewOnWikidata" ("https://www.wikidata.org/wiki/" ++ r.id)) fun _ =>
            setDisabled "viewOnWikidata" false).val = Except.ok () := by
      rw [stepBind_val, getEntity_val]
      rfl
    exact h3

lemma initTry_val (w : World) (app : App) :
    (initTry w app).val = Except.ok () := by
  have h : (initTry w app).val =
      (stepBind (loadArtistData w app) fun _ =>
        stepBind (loadWorkData w app) fun _ =>
          stepBind hideLoading fun _ => showContent).val := rfl
  rw [h, stepBind_val, loadArtistData_val]
  rw [stepBind_val, loadWorkData_val]
  rfl

lemma init_val (w : World) (app : App) :
    (init w app).val = Except.ok () := by
  have h : (init w app).val = (stepTryCatch (initTry w app) initCatch).val := rfl
  rw [h, stepTryCatch_val, initTry_val]


/-- A step whose DOM update leaves the content container's HTML
unchanged. -/
def preservesContentHtml {α : Type} (x : Step α) : Prop :=
  ∀ d : Dom,
    ((x.upd d).elems "projectContent").innerHTML = ((d.elems "projectContent").innerHTML)

lemma preservesContentHtml_pure {α : Type} (a : α) : preservesContentHtml (stepPure a) :=
  fun _ => rfl

lemma preservesContentHtml_throw {α : Type} : preservesContentHtml (stepThrow (α := α)) :=
  fun _ => rfl

lemma preservesContentHtml_bind {α β : Type} {x : Step α} {f : α → Step β}
    (hx : preservesContentHtml x) (hf : ∀ a, preservesContentHtml (f a)) :
    preservesContentHtml (stepBind x f) := by
  intro d
  rw [stepBind_upd]
  cases hv : x.val with
  | error e => exact hx d
  | ok a =>
    simp only []
    rw [hf a (x.upd d), hx d]

lemma preservesContentHtml_spawn {x : Step Unit} (hx : preservesContentHtml x) :
    preservesContentHtml (stepSpawn x) :=
  hx

lemma preservesContentHtml_updateElem_ne (tid : String) (f : Elem → Elem)
    (h : tid ≠ "projectContent") :
    preservesContentHtml (stepUpd fun d => updateElem d tid f) := by
  intro d
  simp only [stepUpd, updateElem]
  rw [if_neg fun hc => h hc.symm]

lemma preservesContentHtml_updateElem_keep (tid : String) (f : Elem → Elem)
    (hf : ∀ e, (f e).innerHTML = e.innerHTML) :
    preservesContentHtml (stepUpd fun d => updateElem d tid f) := by
  intro d
  simp only [stepUpd, updateElem]
  by_cases hc : "projectContent" = tid
  · rw [if_pos hc]
    exact hf _
  · rw [if_neg hc]

lemma preservesContentHtml_setDocTitle (s : String) :
    preservesContentHtml (setDocTitle s) :=
  fun _ => rfl

lemma preservesContentHtml_getEntity (w : World) (eid : String) :
    preservesContentHtml (getEntity w eid) := by
  intro d
  rw [getEntity_upd]

lemma preservesContentHtml_searchEntities (w : World) (t : String) :
    preservesContentHtml (searchEntities w t) := by
  intro d
  rw [searchEntities_upd]

lemma preservesContentHtml_getEntityLabelById (w : World) (eid lang : String) :
    preservesContentHtml (getEntityLabelById w eid lang) := by
  apply preservesContentHtml_bind (preservesContentHtml_getEntity w eid)
  intro ent
  cases ent with
  | some e => exact preservesContentHtml_pure _
  | none => exact preservesContentHtml_pure _

lemma preservesContentHtml_awaitProp (w : World) (e : Entity) (pid : String) :
    preservesContentHtml (awaitProp w e pid) := by
  unfold awaitProp
  cases getPropertyValue e pid with
  | value s => exact preservesContentHtml_pure s
  | promiseLabel i => exact preservesContentHtml_getEntityLabelById w i "it"
  | jsThrow => exact preservesContentHtml_throw

lemma preservesContentHtml_dateProp (w : World) (e : Entity) (pid : String) :
    preservesContentHtml (dateProp w e pid) := by
  unfold dateProp
  cases getPropertyValue e pid with
  | value s => exact preservesContentHtml_pure _
  | promiseLabel i =>
    exact preservesContentHtml_bind (preservesContentHtml_getEntityLabelById w i "it")
      fun _ => preservesContentHtml_throw
  | jsThrow => exact preservesContentHtml_throw

lemma preservesContentHtml_artistDataFields (w : World) (artist : Option Entity) :
    preservesContentHtml (artistDataFields w artist) := by
  cases artist with
  | none => exact preservesContentHtml_throw
  | some a =>
    exact preservesContentHtml_bind (preservesContentHtml_dateProp w a "P569") fun _ =>
      preservesContentHtml_bind (preservesContentHtml_awaitProp w a "P19") fun _ =>
        preservesContentHtml_bind (preservesContentHtml_awaitProp w a "P27") fun _ =>
          preservesContentHtml_bind (preservesContentHtml_awaitProp w a "P135") fun _ =>
            preservesContentHtml_pure _

lemma preservesContentHtml_workDataFields (w : World) (work : Option Entity) :
    preservesContentHtml (workDataFields w work) := by
  cases work with
  | none => exact preservesContentHtml_throw
  | some a =>
    exact preservesContentHtml_bind (preservesContentHtml_dateProp w a "P571") fun _ =>
      preservesContentHtml_bind (preservesContentHtml_awaitProp w a "P186") fun _ =>
        preservesContentHtml_bind (preservesContentHtml_awaitProp w a "P186") fun _ =>
          preservesContentHtml_bind (preservesContentHtml_awaitProp w a "P2049") fun _ =>
            preservesContentHtml_bind (preservesContentHtml_awaitProp w a "P136") fun _ =>
              preservesContentHtml_pure _

lemma preservesContentHtml_loadArtistData (w : World) (app : App) :
    preservesContentHtml (loadArtistData w app) := by
  apply preservesContentHtml_bind (preservesContentHtml_searchEntities w app.artistName)
  intro rs
  cases rs with
  | nil => exact preservesContentHtml_updateElem_ne _ _ (by decide)
  | cons r rest =>
    exact preservesContentHtml_bind (preservesContentHtml_getEntity w r.id) fun ent =>
      preservesContentHtml_spawn
        (preservesContentHtml_bind (preservesContentHtml_artistDataFields w ent) fun data =>
          preservesContentHtml_updateElem_ne _ _ (by decide))

lemma preservesContentHtml_loadWorkData (w : World) (app : App) :
    preservesContentHtml (loadWorkData w app) := by
  apply preservesContentHtml_bind
    (preservesContentHtml_searchEntities w (app.workName ++ " " ++ app.artistName))
  intro rs
  cases rs with
  | nil => exact preservesContentHtml_updateElem_ne _ _ (by decide)
  | cons r rest =>
    exact preservesContentHtml_bind (preservesContentHtml_getEntity w r.id) fun ent =>
      preservesContentHtml_bind
        (preservesContentHtml_spawn
          (preservesContentHtml_bind (preservesContentHtml_workDataFields w ent) fun data =>
            preservesContentHtml_updateElem_ne _ _ (by decide))) fun _ =>
        preservesContentHtml_bind (preservesContentHtml_updateElem_ne _ _ (by decide)) fun _ =>
          preservesContentHtml_updateElem_ne _ _ (by decide)

lemma preservesContentHtml_initTry (w : World) (app : App) :
    preservesContentHtml (initTry w app) := by
  exact preservesContentHtml_bind (preservesContentHtml_updateElem_ne _ _ (by decide)) fun _ =>
    preservesContentHtml_bind (preservesContentHtml_updateElem_ne _ _ (by decide)) fun _ =>
      preservesContentHtml_bind (preservesContentHtml_updateElem_ne _ _ (by decide)) fun _ =>
        preservesContentHtml_bind (preservesContentHtml_setDocTitle _) fun _ =>
          preservesContentHtml_bind (preservesContentHtml_loadArtistData w app) fun _ =>
            preservesContentHtml_bind (preservesContentHtml_loadWorkData w app) fun _ =>
              preservesContentHtml_bind (preservesContentHtml_updateElem_ne _ _ (by decide)) fun _ =>
                preservesContentHtml_updateElem_keep _ _ fun e => rfl

lemma preservesContentHtml_showLoading : preservesContentHtml showLoading := by
  exact preservesContentHtml_bind (preservesContentHtml_updateElem_ne _ _ (by decide)) fun _ =>
    preservesContentHtml_updateElem_keep _ _ fun e => rfl

/-- Counterexample to C6 as stated: in `w2` the artist entity fetch fails,
`getEntity` resolves to `null`, and rendering the fetched (null) entity
throws — yet the catch-all never runs, because the display call's promise
is discarded.  The load settles normally: the content container is shown
with its HTML untouched (the generic error panel is never written) and the
spinner is hidden. -/
theorem c6_counterexample :
    (displayArtistData w2 (entityOf w2 "Q1")).val = Except.error () ∧
    (init w2 app0).val = Except.ok () ∧
    (((init w2 app0).upd dom0).elems "projectContent").innerHTML = "" ∧
    (((init w2 app0).upd dom0).elems "projectContent").innerHTML ≠ errorPanelHtml ∧
    (((init w2 app0).upd dom0).elems "loadingSpinner").display = "none" := by
  refine ⟨rfl, rfl, rfl, by decide, rfl⟩

/-- C6 (amended): an error raised while rendering a fetched entity never
reaches `init`'s single catch-all — the display call's promise is
discarded and its rejection is unhandled.  Within the modelled flows the
try body never throws: every page load settles normally, ends with the
loading spinner hidden and the content container visible, and never
writes the generic error panel (the content container's HTML is left
untouched).  The catch-all's three writes (hide spinner, show content,
error panel) would only fire on an exception thrown synchronously inside
the try body. -/
theorem c6_amended_render_errors_unhandled :
    ∀ (w : World) (app : App) (d : Dom),
      (init w app).val = Except.ok () ∧
      (((init w app).upd d).elems "loadingSpinner").display = "none" ∧
      (((init w app).upd d).elems "projectContent").display = "block" ∧
      (((init w app).upd d).elems "projectContent").innerHTML =
        ((d.elems "projectContent").innerHTML) := by
  intro w app d
  have hupd : (init w app).upd d = (initTry w app).upd (showLoading.upd d) := by
    have h1 : (init w app).upd d =
        (stepTryCatch (initTry w app) initCatch).upd (showLoading.upd d) := rfl
    rw [h1, stepTryCatch_upd, initTry_val]
  have htail : ∀ d' : Dom, (initTry w app).upd d' =
      showContent.upd (hideLoading.upd ((loadWorkData w app).upd ((loadArtistData w app).upd
        ((setDocTitle (app.workName ++ " - " ++ app.artistName ++ " | Biennale Eco Archive")).upd
          ((setText "projectYear" app.year).upd ((setText "projectArtist" app.artistName).upd
            ((setText "projectTitle" app.workName).upd d'))))))) := by
    intro d'
    have h2 : (initTry w app).upd d' =
        (stepBind (loadArtistData w app) fun _ =>
          stepBind (loadWorkData w app) fun _ =>
            stepBind hideLoading fun _ => showContent).upd
          ((setDocTitle (app.workName ++ " - " ++ app.artistName ++ " | Biennale Eco Archive")).upd
            ((setText "projectYear" app.year).upd ((setText "projectArtist" app.artistName).upd
              ((setText "projectTitle" app.workName).upd d')))) := rfl
    rw [h2, stepBind_upd, loadArtistData_val, stepBind_upd, loadWorkData_val]
    rfl
  refine ⟨init_val w app, ?_, ?_, ?_⟩
  · rw [hupd, htail]
    rfl
  · rw [hupd, htail]
    rfl
  · rw [hupd]
    rw [preservesContentHtml_initTry w app (showLoading.upd d),
      preservesContentHtml_showLoading d]

/-! ## Claim C8: frame condition -/

/-- The element ids the program ever writes to. -/
def touchedIds : List String :=
  ["projectTitle", "projectArtist", "projectYear", "artistWikidata",
   "workWikidata", "viewOnWikidata", "loadingSpinner", "projectContent"]

/-- A step whose DOM update leaves every element outside `touchedIds`
unchanged. -/
def framePreserving {α : Type} (x : Step α) : Prop :=
  ∀ (d : Dom) (eid : String), eid ∉ touchedIds → (x.upd d).elems eid = d.elems eid

lemma framePreserving_pure {α : Type} (a : α) : framePreserving (stepPure a) :=
  fun _ _ _ => rfl

lemma framePreserving_throw {α : Type} : framePreserving (stepThrow (α := α)) :=
  fun _ _ _ => rfl

lemma framePreserving_log : framePreserving stepLog :=
  fun _ _ _ => rfl

lemma framePreserving_bind {α β : Type} {x : Step α} {f : α → Step β}
    (hx : framePreserving x) (hf : ∀ a, framePreserving (f a)) :
    framePreserving (stepBind x f) := by
  intro d eid he
  rw [stepBind_upd]
  cases hv : x.val with
  | error e => exact hx d eid he
  | ok a =>
    simp only []
    rw [hf a (x.upd d) eid he, hx d eid he]

lemma framePreserving_tryCatch {α : Type} {x h : Step α}
    (hx : framePreserving x) (hh : framePreserving h) :
    framePreserving (stepTryCatch x h) := by
  intro d eid he
  rw [stepTryCatch_upd]
  cases hv : x.val with
  | ok a => exact hx d eid he
  | error e =>
    simp only []
    rw [hh (x.upd d) eid he, hx d eid he]

lemma framePreserving_updateElem (tid : String) (f : Elem → Elem) (ht : tid ∈ touchedIds) :
    framePreserving (stepUpd fun d => updateElem d tid f) := by
  intro d eid he
  simp only [stepUpd, updateElem]
  rw [if_neg]
  intro hcon
  exact he (hcon ▸ ht)

lemma framePreserving_setDocTitle (s : String) : framePreserving (setDocTitle s) :=
  fun _ _ _ => rfl

lemma framePreserving_getEntity (w : World) (eid : String) :
    framePreserving (getEntity w eid) := by
  intro d e he
  rw [getEntity_upd]

lemma framePreserving_searchEntities (w : World) (t : String) :
    framePreserving (searchEntities w t) := by
  intro d e he
  rw [searchEntities_upd]

lemma framePreserving_getEntityLabelById (w : World) (eid lang : String) :
    framePreserving (getEntityLabelById w eid lang) := by
  apply framePreserving_bind (framePreserving_getEntity w eid)
  intro ent
  cases ent with
  | some e => exact framePreserving_pure _
  | none => exact framePreserving_pure _

lemma framePreserving_awaitProp (w : World) (e : Entity) (pid : String) :
    framePreserving (awaitProp w e pid) := by
  unfold awaitProp
  cases getPropertyValue e pid with
  | value s => exact framePreserving_pure s
  | promiseLabel i => exact framePreserving_getEntityLabelById w i "it"
  | jsThrow => exact framePreserving_throw

lemma framePreserving_dateProp (w : World) (e : Entity) (pid : String) :
    framePreserving (dateProp w e pid) := by
  unfold dateProp
  cases getPropertyValue e pid with
  | value s => exact framePreserving_pure _
  | promiseLabel i =>
    exact framePreserving_bind (framePreserving_getEntityLabelById w i "it")
      fun _ => framePreserving_throw
  | jsThrow => exact framePreserving_throw

lemma framePreserving_renderMetadata (cid : String) (hc : cid ∈ touchedIds)
    (data : List (String × String)) :
    framePreserving (renderMetadata cid data) :=
  framePreserving_updateElem cid _ hc

lemma framePreserving_artistDataFields (w : World) (artist : Option Entity) :
    framePreserving (artistDataFields w artist) := by
  cases artist with
  | none => exact framePreserving_throw
  | some a =>
    exact framePreserving_bind (framePreserving_dateProp w a "P569") fun _ =>
      framePreserving_bind (framePreserving_awaitProp w a "P19") fun _ =>
        framePreserving_bind (framePreserving_awaitProp w a "P27") fun _ =>
          framePreserving_bind (framePreserving_awaitProp w a "P135") fun _ =>
            framePreserving_pure _

lemma framePreserving_workDataFields (w : World) (work : Option Entity) :
    framePreserving (workDataFields w work) := by
  cases work with
  | none => exact framePreserving_throw
  | some a =>
    exact framePreserving_bind (framePreserving_dateProp w a "P571") fun _ =>
      framePreserving_bind (framePreserving_awaitProp w a "P186") fun _ =>
        framePreserving_bind (framePreserving_awaitProp w a "P186") fun _ =>
          framePreserving_bind (framePreserving_awaitProp w a "P2049") fun _ =>
            framePreserving_bind (framePreserving_awaitProp w a "P136") fun _ =>
              framePreserving_pure _

lemma framePreserving_spawn {x : Step Unit} (hx : framePreserving x) :
    framePreserving (stepSpawn x) :=
  hx

lemma framePreserving_loadArtistData (w : World) (app : App) :
    framePreserving (loadArtistData w app) := by
  apply framePreserving_bind (framePreserving_searchEntities w app.artistName)
  intro rs
  cases rs with
  | nil => exact framePreserving_updateElem _ _ (by decide)
  | cons r rest =>
    exact framePreserving_bind (framePreserving_getEntity w r.id) fun ent =>
      framePreserving_spawn
        (framePreserving_bind (framePreserving_artistDataFields w ent) fun data =>
          framePreserving_renderMetadata _ (by decide) data)

lemma framePreserving_loadWorkData (w : World) (app : App) :
    framePreserving (loadWorkData w app) := by
  apply framePreserving_bind (framePreserving_searchEntities w (app.workName ++ " " ++ app.artistName))
  intro rs
  cases rs with
  | nil => exact framePreserving_updateElem _ _ (by decide)
  | cons r rest =>
    exact framePreserving_bind (framePreserving_getEntity w r.id) fun ent =>
      framePreserving_bind
        (framePreserving_spawn
          (framePreserving_bind (framePreserving_workDataFields w ent) fun data =>
            framePreserving_renderMetadata _ (by decide) data)) fun _ =>
        framePreserving_bind (framePreserving_updateElem _ _ (by decide)) fun _ =>
          framePreserving_updateElem _ _ (by decide)

lemma framePreserving_initTry (w : World) (app : App) :
    framePreserving (initTry w app) := by
  exact framePreserving_bind (framePreserving_updateElem _ _ (by decide)) fun _ =>
    framePreserving_bind (framePreserving_updateElem _ _ (by decide)) fun _ =>
      framePreserving_bind (framePreserving_updateElem _ _ (by decide)) fun _ =>
        framePreserving_bind (framePreserving_setDocTitle _) fun _ =>
          framePreserving_bind (framePreserving_loadArtistData w app) fun _ =>
            framePreserving_bind (framePreserving_loadWorkData w app) fun _ =>
              framePreserving_bind (framePreserving_updateElem _ _ (by decide)) fun _ =>
                framePreserving_updateElem _ _ (by decide)

lemma framePreserving_initCatch : framePreserving initCatch := by
  exact framePreserving_bind framePreserving_log fun _ =>
    framePreserving_bind (framePreserving_updateElem _ _ (by decide)) fun _ =>
      framePreserving_bind (framePreserving_updateElem _ _ (by decide)) fun _ =>
        framePreserving_updateElem _ _ (by decide)

/-- C8: a whole page load only writes to the fixed ids `projectTitle`,
`projectArtist`, `projectYear`, `artistWikidata`, `workWikidata`,
`viewOnWikidata`, `loadingSpinner` and `projectContent` (plus
`document.title`, which is a separate `Dom` field): every other element is
left exactly as it was. -/
theorem c8_frame_condition :
    ∀ (w : World) (app : App) (d : Dom) (eid : String),
      eid ∉ touchedIds →
      ((init w app).upd d).elems eid = d.elems eid := by
  intro w app d eid he
  have h : framePreserving (init w app) := by
    apply framePreserving_bind
    · exact framePreserving_bind (framePreserving_updateElem _ _ (by decide)) fun _ =>
        framePreserving_updateElem _ _ (by decide)
    · intro a
      exact framePreserving_tryCatch (framePreserving_initTry w app) framePreserving_initCatch
  exact h d eid he

/-- Witness for C8 at a concrete element id outside the touched set. -/
theorem c8_frame_condition_witness :
    "navbar" ∉ touchedIds ∧
    ((init w1 app0).upd dom0).elems "navbar" = dom0.elems "navbar" := by
  exact ⟨by decide, c8_frame_condition w1 app0 dom0 "navbar" (by decide)⟩

/-! ## Claim C3: request counting -/

/-- The step issues at most `n` HTTP requests. -/
def reqLe {α : Type} (x : Step α) (n : Nat) : Prop :=
  x.reqs.length ≤ n

lemma reqLe_mono {α : Type} {x : Step α} {m n : Nat} (h : reqLe x m) (hmn : m ≤ n) :
    reqLe x n :=
  le_trans h hmn

lemma reqLe_bind {α β : Type} {x : Step α} {f : α → Step β} {m n : Nat}
    (hx : reqLe x m) (hf : ∀ a, reqLe (f a) n) :
    reqLe (stepBind x f) (m + n) := by
  unfold reqLe at *
  rw [stepBind_reqs]
  cases hv : x.val with
  | error e => exact le_trans hx (Nat.le_add_right m n)
  | ok a =>
    simp only [List.length_append]
    exact Nat.add_le_add hx (hf a)

lemma reqLe_tryCatch {α : Type} {x h : Step α} {m n : Nat}
    (hx : reqLe x m) (hh : reqLe h n) :
    reqLe (stepTryCatch x h) (m + n) := by
  unfold reqLe at *
  rw [stepTryCatch_reqs]
  cases hv : x.val with
  | ok a => exact le_trans hx (Nat.le_add_right m n)
  | error e =>
    simp only [List.length_append]
    exact Nat.add_le_add hx hh

lemma reqLe_pure {α : Type} (a : α) : reqLe (stepPure a) 0 :=
  Nat.le_refl 0

lemma reqLe_throw {α : Type} : reqLe (stepThrow (α := α)) 0 :=
  Nat.le_refl 0

lemma reqLe_log : reqLe stepLog 0 :=
  Nat.le_refl 0

lemma reqLe_upd (f : Dom → Dom) : reqLe (stepUpd f) 0 :=
  Nat.le_refl 0

lemma reqLe_getEntity (w : World) (eid : String) : reqLe (getEntity w eid) 1 := by
  unfold reqLe
  rw [getEntity_reqs]
  exact Nat.le_refl 1

lemma reqLe_searchEntities (w : World) (t : String) : reqLe (searchEntities w t) 1 := by
  unfold reqLe
  rw [searchEntities_reqs]
  exact Nat.le_refl 1

lemma reqLe_getEntityLabelById (w : World) (eid lang : String) :
    reqLe (getEntityLabelById w eid lang) 1 := by
  have h := reqLe_bind (reqLe_getEntity w eid)
    (f := fun ent => match ent with
      | some e => stepPure (getLabel e lang)
      | none => stepPure eid)
    (fun ent => by cases ent with
      | some e => exact reqLe_pure _
      | none => exact reqLe_pure _)
  exact h

lemma reqLe_awaitProp (w : World) (e : Entity) (pid : String) :
    reqLe (awaitProp w e pid) 1 := by
  unfold awaitProp
  cases getPropertyValue e pid with
  | value s => exact reqLe_mono (reqLe_pure s) (Nat.zero_le 1)
  | promiseLabel i => exact reqLe_getEntityLabelById w i "it"
  | jsThrow => exact reqLe_mono reqLe_throw (Nat.zero_le 1)

lemma reqLe_dateProp (w : World) (e : Entity) (pid : String) :
    reqLe (dateProp w e pid) 1 := by
  unfold dateProp
  cases getPropertyValue e pid with
  | value s => exact reqLe_mono (reqLe_pure _) (Nat.zero_le 1)
  | promiseLabel i =>
    exact reqLe_bind (reqLe_getEntityLabelById w i "it") fun _ => reqLe_throw
  | jsThrow => exact reqLe_mono reqLe_throw (Nat.zero_le 1)

lemma reqLe_artistDataFields (w : World) (artist : Option Entity) :
    reqLe (artistDataFields w artist) 4 := by
  cases artist with
  | none => exact reqLe_mono reqLe_throw (Nat.zero_le 4)
  | some a =>
    exact reqLe_bind (reqLe_dateProp w a "P569") fun _ =>
      reqLe_bind (reqLe_awaitProp w a "P19") fun _ =>
        reqLe_bind (reqLe_awaitProp w a "P27") fun _ =>
          reqLe_bind (reqLe_awaitProp w a "P135") fun _ =>
            reqLe_pure _

lemma reqLe_workDataFields (w : World) (work : Option Entity) :
    reqLe (workDataFields w work) 5 := by
  cases work with
  | none => exact reqLe_mono reqLe_throw (Nat.zero_le 5)
  | some a =>
    exact reqLe_bind (reqLe_dateProp w a "P571") fun _ =>
      reqLe_bind (reqLe_awaitProp w a "P186") fun _ =>
        reqLe_bind (reqLe_awaitProp w a "P186") fun _ =>
          reqLe_bind (reqLe_awaitProp w a "P2049") fun _ =>
            reqLe_bind (reqLe_awaitProp w a "P136") fun _ =>
              reqLe_pure _

lemma reqLe_spawn {x : Step Unit} {n : Nat} (hx : reqLe x n) : reqLe (stepSpawn x) n :=
  hx

lemma reqLe_loadArtistData (w : World) (app : App) :
    reqLe (loadArtistData w app) 6 := by
  have h : reqLe (loadArtistData w app) (1 + 5) := by
    apply reqLe_bind (reqLe_searchEntities w app.artistName)
    intro rs
    cases rs with
    | nil => exact reqLe_mono (reqLe_upd _) (Nat.zero_le 5)
    | cons r rest =>
      have h3 : reqLe (stepBind (getEntity w r.id) fun artistEntity =>
          stepSpawn (displayArtistData w artistEntity)) (1 + (4 + 0)) :=
        reqLe_bind (reqLe_getEntity w r.id) fun ent =>
          reqLe_spawn (reqLe_bind (reqLe_artistDataFields w ent) fun _ => reqLe_upd _)
      exact h3
  exact h

lemma reqLe_loadWorkData (w : World) (app : App) :
    reqLe (loadWorkData w app) 7 := by
  have h : reqLe (loadWorkData w app) (1 + 6) := by
    apply reqLe_bind (reqLe_searchEntities w (app.workName ++ " " ++ app.artistName))
    intro rs
    cases rs with
    | nil => exact reqLe_mono (reqLe_upd _) (Nat.zero_le 6)
    | cons r rest =>
      have h2 : reqLe (stepBind (getEntity w r.id) fun workEntity =>
          stepBind (stepSpawn (displayWorkData w workEntity)) fun _ =>
            stepBind (setHref "viewOnWikidata" ("https://www.wikidata.org/wiki/" ++ r.id)) fun _ =>
              setDisabled "viewOnWikidata" false) (1 + 5) := by
        apply reqLe_bind (reqLe_getEntity w r.id)
        intro ent
        exact reqLe_bind
          (reqLe_spawn (reqLe_bind (reqLe_workDataFields w ent) fun _ => reqLe_upd _)) fun _ =>
          reqLe_bind (reqLe_upd _) fun _ => reqLe_upd _
      exact h2
  exact h

/-- Counterexample to C3 as stated: in `w1` the artist's birth place
(`P19`) is an entity reference, so `getPropertyValue` calls
`getEntityLabelById`, which fetches the referenced entity `Q2` — a fifth
request, issued while extracting property values (and, since the display
call is not awaited, concurrently with the remainder of the page load).
Only the count and membership of the trace are asserted: the model does
not preserve the real cross-strand request order. -/
theorem c3_counterexample :
    (init w1 app0).reqs.length = 5 ∧
    Req.entityData "Q2" ∈ (init w1 app0).reqs ∧
    ¬ (init w1 app0).reqs.length ≤ 4 := by
  refine ⟨by decide, by decide, by decide⟩

/-- C3 (amended): a page load is limited neither to four requests nor to
sequential issuing: besides the four top-level requests (artist search,
artist fetch, work search, work fetch), every `getPropertyValue` call
site whose first datavalue is an entity reference issues one further
entity fetch via `getEntityLabelById` (four artist call sites, five work
call sites), and these extraction fetches run concurrently with the
remainder of the load because the display calls are not awaited.  In
total a page load issues at most thirteen requests. -/
theorem c3_amended_request_bound :
    ∀ (w : World) (app : App), (init w app).reqs.length ≤ 13 := by
  intro w app
  have h : reqLe (init w app) 13 := by
    apply reqLe_bind (m := 0) (n := 13)
    · exact reqLe_bind (reqLe_upd _) fun _ => reqLe_upd _
    · intro a
      apply reqLe_tryCatch (m := 13) (n := 0)
      · exact reqLe_bind (reqLe_upd _) fun _ =>
          reqLe_bind (reqLe_upd _) fun _ =>
            reqLe_bind (reqLe_upd _) fun _ =>
              reqLe_bind (reqLe_upd _) fun _ =>
                reqLe_bind (reqLe_loadArtistData w app) fun _ =>
                  reqLe_bind (reqLe_loadWorkData w app) fun _ =>
                    reqLe_bind (reqLe_upd _) fun _ => reqLe_upd _
      · exact reqLe_bind reqLe_log fun _ =>
          reqLe_bind (reqLe_upd _) fun _ =>
            reqLe_bind (reqLe_upd _) fun _ => reqLe_upd _
  exact h

end WikidataSpec
